import Mathlib

/-!
Shallow embedding of `src/schema/src/schema/schema.rs` (keydap/phoenix):
SCIM-style schema loading, attribute-tree normalization, validation and
index building. File I/O and serde JSON parsing are external collaborators;
the embedding starts from an already-deserialized `Schema` value, with the
`#[serde(skip)]` fields at their `Default::default()` values (empty strings,
empty collections, `false` booleans), exactly as serde leaves them.

The Rust `AttrType.parent` field (a weak back-reference used only for
upward lookup, never serialized) cannot be represented in a pure tree and
no validated claim observes it; it is the one field omitted. `HashMap` is
modelled as an association list with replace-or-append insertion; theorems
about map contents are stated through key membership and lookup, never
through the (unspecified) iteration order of the Rust `HashMap`.
-/

namespace Phoenix

/-- Rust `str::to_ascii_lowercase` / `make_ascii_lowercase` on one character:
maps A-Z to a-z and leaves every other character unchanged. -/
def asciiToLowerChar (c : Char) : Char :=
  if 65 ≤ c.toNat ∧ c.toNat ≤ 90 then Char.ofNat (c.toNat + 32) else c

/-- Rust `str::to_ascii_lowercase` on a string, character by character
(written over the string's character list so that it computes by
structural recursion). -/
def toAsciiLowercase (s : String) : String :=
  ⟨s.data.map asciiToLowerChar⟩

/-- `ATTR_DELIM` of schema.rs line 8. -/
def ATTR_DELIM : String := "."

/-- `validTypes` of schema.rs lines 9-18. -/
def validTypes : List String :=
  ["string", "boolean", "decimal", "integer", "datetime", "binary", "reference", "complex"]

/-- `validMutability` of schema.rs line 20. -/
def validMutability : List String :=
  ["readonly", "readwrite", "immutable", "writeonly"]

/-- `validReturned` of schema.rs line 22. -/
def validReturned : List String :=
  ["always", "never", "default", "request"]

/-- `validUniqueness` of schema.rs line 24. -/
def validUniqueness : List String :=
  ["none", "server", "global"]

/-- The character class of the regex `^[0-9A-Za-z_$-]+$` built at
schema.rs line 236. -/
def validNameChar (c : Char) : Bool :=
  (48 ≤ c.toNat && c.toNat ≤ 57) || (65 ≤ c.toNat && c.toNat ≤ 90) ||
    (97 ≤ c.toNat && c.toNat ≤ 122) || c = '_' || c = '$' || c = '-'

/-- `validNameRegex.is_match` of schema.rs line 264: the whole string is a
non-empty run of characters from `[0-9A-Za-z_$-]` (the Rust regex crate
anchors `^`/`$` at the ends of the haystack). -/
def validNameRegex (s : String) : Bool :=
  !s.data.isEmpty && s.data.all validNameChar

/-- The scalar fields of `AttrType` (schema.rs lines 41-76). `Type` is a
reserved word in Lean, so the field is `type_`; all other names match the
source. The `parent` back-reference is omitted (see the file comment). -/
structure AttrFields where
  name : String
  type_ : String
  description : String
  caseExact : Bool
  multiValued : Bool
  mutability : String
  required : Bool
  returned : String
  uniqueness : String
  referenceTypes : List String
  schemaId : String
  normName : String
  canonicalValues : List String
  isUnique : Bool
  isComplex : Bool
  isRef : Bool
  isSimple : Bool
  isReadOnly : Bool
  isImmutable : Bool
  isStringType : Bool
  deriving Repr, DecidableEq

mutual
/-- One `AttrType` node: scalar fields, the ordered `subAttributes`
vector, and the `subAttrMap` lookup map (`normName → child`). -/
inductive Attr where
  | node (fields : AttrFields) (subAttributes : AttrList) (subAttrMap : AttrMap)
  deriving DecidableEq
/-- `Vec<Rc<AttrType>>` of the source. -/
inductive AttrList where
  | nil
  | cons (head : Attr) (tail : AttrList)
  deriving DecidableEq
/-- `HashMap<String, Rc<AttrType>>` of the source, as an association list. -/
inductive AttrMap where
  | nil
  | cons (key : String) (value : Attr) (tail : AttrMap)
  deriving DecidableEq
end

def Attr.fields : Attr → AttrFields
  | .node f _ _ => f

def Attr.subAttributes : Attr → AttrList
  | .node _ s _ => s

def Attr.subAttrMap : Attr → AttrMap
  | .node _ _ m => m

def AttrList.length : AttrList → Nat
  | .nil => 0
  | .cons _ t => 1 + t.length

def AttrList.toList : AttrList → List Attr
  | .nil => []
  | .cons a t => a :: t.toList

def AttrList.append : AttrList → AttrList → AttrList
  | .nil, l => l
  | .cons a t, l => .cons a (t.append l)

def AttrMap.length : AttrMap → Nat
  | .nil => 0
  | .cons _ _ t => 1 + t.length

def AttrMap.containsKey (k : String) : AttrMap → Bool
  | .nil => false
  | .cons k' _ t => if k' = k then true else t.containsKey k

/-- `HashMap::insert`: replace the value under an existing key, otherwise
add the binding. -/
def AttrMap.insert (k : String) (v : Attr) : AttrMap → AttrMap
  | .nil => .cons k v .nil
  | .cons k' v' t => if k' = k then .cons k v t else .cons k' v' (t.insert k v)

def AttrMap.find (k : String) : AttrMap → Option Attr
  | .nil => none
  | .cons k' v t => if k' = k then some v else t.find k

/-- `new_attr_type()` of schema.rs lines 133-159: the rfc7643 section 2.2
defaults, with every `#[serde(skip)]` cache flag `false`. -/
def new_attr_type_fields : AttrFields where
  name := ""
  type_ := "string"
  description := ""
  caseExact := false
  multiValued := false
  mutability := "readWrite"
  required := false
  returned := "default"
  uniqueness := "none"
  referenceTypes := []
  schemaId := ""
  normName := ""
  canonicalValues := []
  isUnique := false
  isComplex := false
  isRef := false
  isSimple := false
  isReadOnly := false
  isImmutable := false
  isStringType := false

/-- `new_attr_type()` as a tree node (empty `subAttributes` and
`subAttrMap`). -/
def new_attr_type : Attr :=
  .node new_attr_type_fields .nil .nil

/-- The per-node body of `setAttrDefaults` (schema.rs lines 194-217):
default the four optional string fields when they are empty, then
recompute every cached classification flag from the now-resolved fields.
The flag assignments mirror lines 211-217 exactly, including `isSimple`
being read off the just-assigned `isComplex`/`isRef` and `isStringType`
off the just-assigned `isRef`. -/
def defaultFields (f : AttrFields) : AttrFields :=
  let mu := if f.mutability = "" then "readWrite" else f.mutability
  let rt := if f.returned = "" then "default" else f.returned
  let un := if f.uniqueness = "" then "none" else f.uniqueness
  let ty := if f.type_ = "" then "string" else f.type_
  let isC : Bool := ty == "complex"
  let isR : Bool := ty == "reference"
  { f with
    mutability := mu
    returned := rt
    uniqueness := un
    type_ := ty
    isUnique := (un == "server") || (un == "global")
    isComplex := isC
    isRef := isR
    isSimple := !isC && !isR
    isReadOnly := mu == "readonly"
    isImmutable := mu == "immutable"
    isStringType := (ty == "string") || isR }

mutual
/-- `setAttrDefaults` (schema.rs lines 194-222): default the missing
fields, recompute the cached flags, and recurse into every element of
`subAttributes` (lines 219-221). `subAttrMap` is not walked by the
source and is left as-is. -/
def setAttrDefaults : Attr → Attr
  | .node f subs m => .node (defaultFields f) (setAttrDefaultsList subs) m
/-- The `for at in attr.subAttributes.iter_mut()` loop of lines 219-221. -/
def setAttrDefaultsList : AttrList → AttrList
  | .nil => .nil
  | .cons a t => .cons (setAttrDefaults a) (setAttrDefaultsList t)
end

/-- `exists` of schema.rs lines 345-352 (named `existsIn` because `exists`
is reserved in Lean): linear scan comparing each token with `val`. -/
def existsIn (val : String) : List String → Bool
  | [] => false
  | t :: rest => if t = val then true else existsIn val rest

/-- The name check of schema.rs lines 264-266. -/
def invalidNameErr (f : AttrFields) : List String :=
  if validNameRegex f.name then [] else ["invalid attribute name '" ++ f.name ++ "'"]

/-- The type check of schema.rs lines 268-274; the message shows the
already lowercased value, as the source pushes it after
`make_ascii_lowercase`. -/
def invalidTypeErr (f : AttrFields) : List String :=
  let ty := toAsciiLowercase f.type_
  if existsIn ty validTypes then []
  else ["invalid type '" ++ ty ++ "' for attribute '" ++ f.name ++ "'"]

/-- The mutability check of schema.rs lines 276-282. -/
def invalidMutabilityErr (f : AttrFields) : List String :=
  let mu := toAsciiLowercase f.mutability
  if existsIn mu validMutability then []
  else ["invalid mutability '" ++ mu ++ "' for attribute '" ++ f.name ++ "'"]

/-- The returned check of schema.rs lines 284-290. -/
def invalidReturnedErr (f : AttrFields) : List String :=
  let rt := toAsciiLowercase f.returned
  if existsIn rt validReturned then []
  else ["invalid returned '" ++ rt ++ "' for attribute '" ++ f.name ++ "'"]

/-- The uniqueness check of schema.rs lines 292-298. -/
def invalidUniquenessErr (f : AttrFields) : List String :=
  let un := toAsciiLowercase f.uniqueness
  if existsIn un validUniqueness then []
  else ["invalid uniqueness '" ++ un ++ "' for attribute '" ++ f.name ++ "'"]

/-- The reference check of schema.rs lines 300-305: reads the cached
`isRef` flag, not the (about to be lowercased) `Type` string. -/
def noRefTypesErr (f : AttrFields) : List String :=
  if f.isRef && f.referenceTypes.length == 0 then
    ["No referenceTypes set for attribute '" ++ f.name ++ "'"]
  else []

/-- The sub-attribute check of schema.rs lines 307-312: reads the cached
`isComplex` flag. -/
def noSubAttrsErr (f : AttrFields) (subs : AttrList) : List String :=
  if f.isComplex && subs.length == 0 then
    ["No subattributes set for attribute '" ++ f.name ++ "'"]
  else []

/-- `addDefSubAttrs` (schema.rs lines 354-392): build the five standard
sub-attributes of rfc7643 section 2.4 (`type`, `primary` boolean,
`display` with immutable mutability, `value`, `$ref`) from
`new_attr_type`, and insert each into `subAttrMap` — not into
`subAttributes` — under its lowercased name, skipping keys already
present; each inserted node is stamped with the parent's `schemaId`
(the `parent` pointer assignment of line 388 is the omitted field). -/
def addDefSubAttrs : Attr → Attr
  | .node f subs m =>
    let typeAttr := { new_attr_type_fields with name := "type", normName := "type" }
    let primaryAttr := { new_attr_type_fields with
      name := "primary", normName := "primary", type_ := "boolean" }
    let displayAttr := { new_attr_type_fields with
      name := "display", normName := "display", mutability := "immutable" }
    let valueAttr := { new_attr_type_fields with name := "value", normName := "value" }
    let refAttr := { new_attr_type_fields with name := "$ref", normName := "$ref" }
    let defArr := [typeAttr, primaryAttr, displayAttr, valueAttr, refAttr]
    let m1 := defArr.foldl (fun acc a =>
      let key := toAsciiLowercase a.name
      if acc.containsKey key then acc
      else acc.insert key (Attr.node { a with schemaId := f.schemaId } .nil .nil)) m
    .node f subs m1

/-- Insert every element of a validated child list into the map under its
`normName`, in order — the `attr.subAttrMap.insert(sa.normName, ...)`
call of schema.rs line 327, once per loop iteration. -/
def AttrMap.insertAll : AttrMap → AttrList → AttrMap
  | m, .nil => m
  | m, .cons a t => (m.insert a.fields.normName a).insertAll t

mutual
/-- `validateAttrType` (schema.rs lines 253-343) as a pure function:
push the seven checks' errors in source order, lowercase the four
enumerated string fields in place, stamp `schemaId` and `normName`
(lines 314-315), and, when the cached `isComplex` flag is set, validate
each declared sub-attribute, register it in `subAttrMap` under its
`normName`, and for multi-valued attributes synthesize the missing
default sub-attributes and re-run `setAttrDefaults` on the node
(lines 337-341). The dotted-path lists the source accumulates into its
local `uniqueAts`/`requiredAts` vectors are built by
`validateAttrTypeLocalPaths` below: the source declares them as the
return value but ends without returning, and its caller discards the
call's value, so they are no part of this function's result. -/
def validateAttrType (scId : String) : Attr → Attr × List String
  | .node f subs m =>
    let ve := invalidNameErr f ++ invalidTypeErr f ++ invalidMutabilityErr f ++
      invalidReturnedErr f ++ invalidUniquenessErr f ++ noRefTypesErr f ++
      noSubAttrsErr f subs
    let f1 := { f with
      type_ := toAsciiLowercase f.type_
      mutability := toAsciiLowercase f.mutability
      returned := toAsciiLowercase f.returned
      uniqueness := toAsciiLowercase f.uniqueness
      schemaId := scId
      normName := toAsciiLowercase f.name }
    if f.isComplex then
      let p := validateAttrTypeList scId subs
      let a1 := Attr.node f1 p.1 (m.insertAll p.1)
      let a2 := if f.multiValued then setAttrDefaults (addDefSubAttrs a1) else a1
      (a2, ve ++ p.2)
    else
      (Attr.node f1 subs m, ve)
/-- The `for sa in attr.subAttributes` loop of schema.rs lines 322-335:
validate each child in order, collecting the rewritten children and the
errors they push. -/
def validateAttrTypeList (scId : String) : AttrList → AttrList × List String
  | .nil => (.nil, [])
  | .cons a t =>
    let p := validateAttrType scId a
    let q := validateAttrTypeList scId t
    (.cons p.1 q.1, p.2 ++ q.2)
end

/-- The dotted-path bookkeeping of schema.rs lines 328-334 over a
validated child list: `parentNorm ++ "." ++ child.normName` goes into the
first list when the child's cached `isUnique` is set and into the second
when the child is `required`. -/
def dottedPaths (parentNorm : String) : AttrList → List String × List String
  | .nil => ([], [])
  | .cons sa t =>
    let nm := parentNorm ++ ATTR_DELIM ++ sa.fields.normName
    let q := dottedPaths parentNorm t
    ((if sa.fields.isUnique then [nm] else []) ++ q.1,
     (if sa.fields.required then [nm] else []) ++ q.2)

/-- The local `uniqueAts`/`requiredAts` vectors of `validateAttrType`
(schema.rs lines 317-334) for one attribute: built only in the complex
branch, from the validated children, and then dropped — the function's
declared `(Vec<String>, Vec<String>)` return value is never produced and
the call at line 238 discards it, so these paths never reach the
schema's own `uniqueAts`/`requiredAts`. -/
def validateAttrTypeLocalPaths (scId : String) : Attr → List String × List String
  | .node f subs _ =>
    if f.isComplex then dottedPaths (toAsciiLowercase f.name) (validateAttrTypeList scId subs).1
    else ([], [])

/-- `Meta` of schema.rs lines 78-82. -/
structure Meta where
  location : String
  resourceType : String
  deriving Repr, DecidableEq

/-- `Schema` of schema.rs lines 85-110. The `#[serde(skip)]` fields
(`attrMap` through `atsReadOnly`) hold their serde defaults — empty —
until some code writes them. -/
structure Schema where
  id : String
  name : String
  description : String
  attributes : AttrList
  meta : Meta
  attrMap : AttrMap
  text : String
  uniqueAts : List String
  requiredAts : List String
  atsNeverRtn : List String
  atsAlwaysRtn : List String
  atsRequestRtn : List String
  atsDefaultRtn : List String
  atsReadOnly : List String
  deriving DecidableEq

/-- The `for attr in sc.attributes.iter_mut()` loop of `validate`
(schema.rs lines 237-248): validate the attribute, then register it in
`attrMap` under its lowercased name, and append that name to `uniqueAts`
when the (post-validation) `isUnique` flag is set and to `requiredAts`
when `required` is set. `done` carries the already-processed prefix of
the attribute list; the loop's error pushes are appended to `ve`. -/
def validateLoop (sc : Schema) (done : AttrList) (ve : List String) :
    AttrList → Schema × List String
  | .nil => ({ sc with attributes := done }, ve)
  | .cons a t =>
    let p := validateAttrType sc.id a
    let nm := toAsciiLowercase p.1.fields.name
    validateLoop
      { sc with
        attrMap := sc.attrMap.insert nm p.1
        uniqueAts := if p.1.fields.isUnique then sc.uniqueAts ++ [nm] else sc.uniqueAts
        requiredAts := if p.1.fields.required then sc.requiredAts ++ [nm] else sc.requiredAts }
      (done.append (.cons p.1 .nil)) (ve ++ p.2) t

/-- `validate` (schema.rs lines 224-251): an empty `id` pushes
"Schema id is required"; an empty attribute list pushes
"A schema should contain atleast one attribute" and returns at once
(line 233), before any per-attribute work; otherwise every top-level
attribute is validated and indexed in order. The result pairs the
mutated schema with the collected error list. -/
def validate (sc : Schema) : Schema × List String :=
  let ve := if sc.id = "" then ["Schema id is required"] else []
  if sc.attributes.length = 0 then
    (sc, ve ++ ["A schema should contain atleast one attribute"])
  else
    validateLoop sc .nil ve sc.attributes

/-- The normalization pass of `load_schema` (schema.rs lines 178-180):
`setAttrDefaults` on every top-level attribute. -/
def normalizeSchema (sc : Schema) : Schema :=
  { sc with attributes := setAttrDefaultsList sc.attributes }

/-- `load_schema` (schema.rs lines 169-191) from the point where the file
has been read and serde has produced a `Schema` (both are external, and
their failures exit before this code): the source normalizes each
top-level attribute and returns `Ok` — the `validate` call of lines
182-188 is commented out, so no validation and no index building runs on
this path. -/
def load_schema (sc : Schema) : Except String Schema :=
  .ok (normalizeSchema sc)

/-- The load pipeline with the commented-out validation of schema.rs
lines 182-188 reinstated, as the spec's section 4.2 and section 7
describe it: normalize, validate, and fail with the collected error list
when it is non-empty. Claims stated about a validated load are settled
against this pipeline. -/
def load_and_validate (sc : Schema) : Except (List String) Schema :=
  let p := validate (normalizeSchema sc)
  if p.2.isEmpty then .ok p.1 else .error p.2

mutual
/-- Pre-order list of every node of an attribute tree reachable through
`subAttributes` — exactly the nodes the recursive walks of
`setAttrDefaults` and `validateAttrType` visit. -/
def Attr.nodes : Attr → List Attr
  | .node f subs m => .node f subs m :: AttrList.nodesList subs
/-- `Attr.nodes` over a child list, left to right. -/
def AttrList.nodesList : AttrList → List Attr
  | .nil => []
  | .cons a t => a.nodes ++ AttrList.nodesList t
end

/-- The classification conditions of the spec's section 3 on one node's
fields: exactly one of `isComplex`/`isRef`/`isSimple` holds, each agrees
with `type_`, and `isStringType` holds exactly for string or reference
attributes. -/
def classificationConsistent (f : AttrFields) : Prop :=
  f.isComplex.toNat + f.isRef.toNat + f.isSimple.toNat = 1
  ∧ f.isComplex = (f.type_ == "complex")
  ∧ f.isRef = (f.type_ == "reference")
  ∧ f.isSimple = (!f.isComplex && !f.isRef)
  ∧ f.isStringType = ((f.type_ == "string") || f.isRef)

/-! Concrete schema fixtures, written as serde leaves them: every
`#[serde(skip)]` field empty/false, optional enumerated strings empty
where the JSON document omitted a value. -/

/-- A meta object; its content is irrelevant to every claim. -/
def metaFx : Meta := { location := "/v2/Schemas/x", resourceType := "Schema" }

/-- Raw top-level attribute `id`: required, globally unique. -/
def idAttrRaw : Attr :=
  .node { new_attr_type_fields with
    name := "id", type_ := "string", mutability := "", returned := "",
    uniqueness := "global", required := true } .nil .nil

/-- Raw sub-attribute `familyname`: required, nothing else set. -/
def familynameRaw : Attr :=
  .node { new_attr_type_fields with
    name := "familyname", type_ := "", mutability := "", returned := "",
    uniqueness := "", required := true } .nil .nil

/-- Raw top-level complex attribute `name` with the single declared
sub-attribute `familyname`; not required, not unique, not multi-valued. -/
def nameAttrRaw : Attr :=
  .node { new_attr_type_fields with
    name := "name", type_ := "complex", mutability := "", returned := "",
    uniqueness := "" } (.cons familynameRaw .nil) .nil

/-- The claim C3 schema: a required globally-unique `id` and a complex
`name` holding a required `familyname`. -/
def sc3 : Schema :=
  { id := "urn:keydap:params:scim:schemas:core:2.0:User", name := "User",
    description := "User Account", attributes := .cons idAttrRaw (.cons nameAttrRaw .nil),
    meta := metaFx, attrMap := .nil, text := "", uniqueAts := [], requiredAts := [],
    atsNeverRtn := [], atsAlwaysRtn := [], atsRequestRtn := [], atsDefaultRtn := [],
    atsReadOnly := [] }

/-- A schema whose attribute list is empty. -/
def scNoAttrs : Schema :=
  { id := "urn:keydap:none", name := "None", description := "", attributes := .nil,
    meta := metaFx, attrMap := .nil, text := "", uniqueAts := [], requiredAts := [],
    atsNeverRtn := [], atsAlwaysRtn := [], atsRequestRtn := [], atsDefaultRtn := [],
    atsReadOnly := [] }

/-- A schema with one well-formed simple attribute whose `returned` value
resolves to `default`. -/
def scOneAttr : Schema :=
  { id := "urn:keydap:one", name := "One", description := "",
    attributes := .cons (.node { new_attr_type_fields with
      name := "userName", type_ := "string", mutability := "", returned := "",
      uniqueness := "server" } .nil .nil) .nil,
    meta := metaFx, attrMap := .nil, text := "", uniqueAts := [], requiredAts := [],
    atsNeverRtn := [], atsAlwaysRtn := [], atsRequestRtn := [], atsDefaultRtn := [],
    atsReadOnly := [] }

/-- Raw multi-valued complex attribute `emails` declared with zero
sub-attributes. -/
def emailsRaw : Attr :=
  .node { new_attr_type_fields with
    name := "emails", type_ := "complex", multiValued := true, mutability := "",
    returned := "", uniqueness := "" } .nil .nil

/-- The result of running `emails` through normalization and
`validateAttrType` — the synthesis path of schema.rs lines 337-341. -/
def emailsValidated : Attr :=
  (validateAttrType "urn:keydap:one" (setAttrDefaults emailsRaw)).1

/-- A declared `value` sub-attribute carrying a custom description. -/
def valueDeclRaw : Attr :=
  .node { new_attr_type_fields with
    name := "value", type_ := "string", description := "custom value sub-attribute",
    mutability := "", returned := "", uniqueness := "" } .nil .nil

/-- Raw multi-valued complex attribute `emails` that already declares a
`value` sub-attribute. -/
def emailsWithValueRaw : Attr :=
  .node { new_attr_type_fields with
    name := "emails", type_ := "complex", multiValued := true, mutability := "",
    returned := "", uniqueness := "" } (.cons valueDeclRaw .nil) .nil

/-- `emailsWithValueRaw` through normalization and `validateAttrType`. -/
def emailsWithValueValidated : Attr :=
  (validateAttrType "urn:keydap:one" (setAttrDefaults emailsWithValueRaw)).1

/-- An attribute whose declared type differs from a valid kind only by
letter case. -/
def capComplexRaw : Attr :=
  .node { new_attr_type_fields with
    name := "mixedCase", type_ := "Complex", mutability := "", returned := "",
    uniqueness := "" } .nil .nil

/-! Helper lemmas shared by the claim theorems. -/

theorem setAttrDefaultsList_toList :
    ∀ l : AttrList, (setAttrDefaultsList l).toList = l.toList.map setAttrDefaults
  | .nil => rfl
  | .cons a t => by
    simp [setAttrDefaultsList, AttrList.toList, setAttrDefaultsList_toList t]

theorem defaultFields_idem (f : AttrFields) :
    defaultFields (defaultFields f) = defaultFields f := by
  have hrw : ("readWrite" : String) ≠ "" := by decide
  have hdf : ("default" : String) ≠ "" := by decide
  have hnn : ("none" : String) ≠ "" := by decide
  have hst : ("string" : String) ≠ "" := by decide
  unfold defaultFields
  by_cases h1 : f.mutability = "" <;> by_cases h2 : f.returned = "" <;>
    by_cases h3 : f.uniqueness = "" <;> by_cases h4 : f.type_ = "" <;>
      simp [h1, h2, h3, h4, hrw, hdf, hnn, hst]

mutual
theorem setAttrDefaults_idem :
    ∀ a : Attr, setAttrDefaults (setAttrDefaults a) = setAttrDefaults a
  | .node f subs m => by
    simp only [setAttrDefaults, Attr.node.injEq]
    exact ⟨defaultFields_idem f, setAttrDefaultsList_idem subs, trivial⟩
theorem setAttrDefaultsList_idem :
    ∀ l : AttrList, setAttrDefaultsList (setAttrDefaultsList l) = setAttrDefaultsList l
  | .nil => rfl
  | .cons a t => by
    simp only [setAttrDefaultsList, AttrList.cons.injEq]
    exact ⟨setAttrDefaults_idem a, setAttrDefaultsList_idem t⟩
end

theorem defaultFields_classification (f : AttrFields) :
    classificationConsistent (defaultFields f) := by
  unfold classificationConsistent defaultFields
  set ty := if f.type_ = "" then "string" else f.type_ with hty
  by_cases hc : ty = "complex" <;> by_cases hr : ty = "reference"
  · exact absurd (hc ▸ hr) (by decide)
  · simp only [hc]; decide
  · simp only [hr]; decide
  · have hc' : (ty == "complex") = false := by simp [hc]
    have hr' : (ty == "reference") = false := by simp [hr]
    simp [hc', hr']

mutual
theorem setAttrDefaults_nodes_classification :
    ∀ a : Attr, ∀ b ∈ (setAttrDefaults a).nodes, classificationConsistent b.fields
  | .node f subs m => by
    intro b hb
    simp only [setAttrDefaults, Attr.nodes, List.mem_cons] at hb
    rcases hb with rfl | hb
    · exact defaultFields_classification f
    · exact setAttrDefaultsList_nodes_classification subs b hb
theorem setAttrDefaultsList_nodes_classification :
    ∀ l : AttrList, ∀ b ∈ AttrList.nodesList (setAttrDefaultsList l),
      classificationConsistent b.fields
  | .nil => by
    intro b hb
    simp [setAttrDefaultsList, AttrList.nodesList] at hb
  | .cons a t => by
    intro b hb
    simp only [setAttrDefaultsList, AttrList.nodesList, List.mem_append] at hb
    rcases hb with hb | hb
    · exact setAttrDefaults_nodes_classification a b hb
    · exact setAttrDefaultsList_nodes_classification t b hb
end

/-! The claim theorems. -/

/-- C6: normalization sets `mutability`/`returned`/`uniqueness`/`type_` to
their defaults exactly when the source field was empty, leaves non-empty
fields (and every other declared field) unchanged, and applies the same
rules recursively to every child. -/
theorem c6_defaulting_rules (a : Attr) :
    (setAttrDefaults a).fields.mutability
      = (if a.fields.mutability = "" then "readWrite" else a.fields.mutability)
    ∧ (setAttrDefaults a).fields.returned
      = (if a.fields.returned = "" then "default" else a.fields.returned)
    ∧ (setAttrDefaults a).fields.uniqueness
      = (if a.fields.uniqueness = "" then "none" else a.fields.uniqueness)
    ∧ (setAttrDefaults a).fields.type_
      = (if a.fields.type_ = "" then "string" else a.fields.type_)
    ∧ (setAttrDefaults a).fields.name = a.fields.name
    ∧ (setAttrDefaults a).fields.description = a.fields.description
    ∧ (setAttrDefaults a).fields.required = a.fields.required
    ∧ (setAttrDefaults a).fields.multiValued = a.fields.multiValued
    ∧ (setAttrDefaults a).fields.caseExact = a.fields.caseExact
    ∧ (setAttrDefaults a).subAttributes.toList
      = a.subAttributes.toList.map setAttrDefaults := by
  cases a with
  | node f subs m =>
    refine ⟨?_, ?_, ?_, ?_, rfl, rfl, rfl, rfl, rfl, ?_⟩ <;>
      simp [setAttrDefaults, defaultFields, Attr.fields, Attr.subAttributes,
        setAttrDefaultsList_toList]

/-- C7: validating a schema whose attribute list is empty reports the
missing-attribute error after the (independent) id check and returns at
once: the schema is returned untouched — no attribute is validated or
indexed — and no error follows the missing-attribute one. -/
theorem c7_empty_attributes_short_circuit (sc : Schema)
    (h : sc.attributes = AttrList.nil) :
    validate sc
      = (sc, (if sc.id = "" then ["Schema id is required"] else [])
          ++ ["A schema should contain atleast one attribute"]) := by
  unfold validate
  rw [h]
  rfl

/-- Witness for C7 at a concrete schema with a non-empty id and no
attributes. -/
theorem c7_empty_attributes_short_circuit_witness :
    scNoAttrs.attributes = AttrList.nil
    ∧ validate scNoAttrs
        = (scNoAttrs, ["A schema should contain atleast one attribute"]) := by
  refine ⟨rfl, ?_⟩
  rw [c7_empty_attributes_short_circuit scNoAttrs rfl]
  rfl

/-- C8: normalization is idempotent — running `setAttrDefaults` on an
already-normalized attribute changes no field and no cached flag of the
node or of any descendant. -/
theorem c8_normalization_idempotent (a : Attr) :
    setAttrDefaults (setAttrDefaults a) = setAttrDefaults a :=
  setAttrDefaults_idem a

/-- C5: after normalization, every node of the attribute tree has exactly
one of `isComplex`/`isRef`/`isSimple` set, each flag agrees with the
resolved `type_`, and `isStringType` holds exactly when the type is
string or the node is a reference. -/
theorem c5_classification_consistency (a b : Attr)
    (hb : b ∈ (setAttrDefaults a).nodes) :
    b.fields.isComplex.toNat + b.fields.isRef.toNat + b.fields.isSimple.toNat = 1
    ∧ b.fields.isComplex = (b.fields.type_ == "complex")
    ∧ b.fields.isRef = (b.fields.type_ == "reference")
    ∧ b.fields.isSimple = (!b.fields.isComplex && !b.fields.isRef)
    ∧ b.fields.isStringType = ((b.fields.type_ == "string") || b.fields.isRef) :=
  setAttrDefaults_nodes_classification a b hb

/-- Witness for C5: the root of the normalized `emails` attribute. -/
theorem c5_classification_consistency_witness :
    (setAttrDefaults emailsRaw).fields.isComplex.toNat
        + (setAttrDefaults emailsRaw).fields.isRef.toNat
        + (setAttrDefaults emailsRaw).fields.isSimple.toNat = 1
    ∧ (setAttrDefaults emailsRaw).fields.isComplex
        = ((setAttrDefaults emailsRaw).fields.type_ == "complex")
    ∧ (setAttrDefaults emailsRaw).fields.isRef
        = ((setAttrDefaults emailsRaw).fields.type_ == "reference")
    ∧ (setAttrDefaults emailsRaw).fields.isSimple
        = (!(setAttrDefaults emailsRaw).fields.isComplex
            && !(setAttrDefaults emailsRaw).fields.isRef)
    ∧ (setAttrDefaults emailsRaw).fields.isStringType
        = (((setAttrDefaults emailsRaw).fields.type_ == "string")
            || (setAttrDefaults emailsRaw).fields.isRef) :=
  c5_classification_consistency emailsRaw (setAttrDefaults emailsRaw) (by decide)

/-- C9: an attribute whose declared type differs from a valid kind only
by letter case (so its lowercase form is a valid kind but the declared
spelling is not already lowercase) passes the type check — validation
lowercases the field in place and pushes no invalid-type error — while
the cached classification flags, computed earlier by case-sensitive
comparison against the original spelling, leave it with
`isComplex = false` and `isSimple = true`. -/
theorem c9_case_only_type_mismatch (scId : String) (a : Attr)
    (h1 : existsIn (toAsciiLowercase a.fields.type_) validTypes = true)
    (h2 : a.fields.type_ ≠ toAsciiLowercase a.fields.type_) :
    invalidTypeErr (setAttrDefaults a).fields = []
    ∧ (validateAttrType scId (setAttrDefaults a)).1.fields.type_
        = toAsciiLowercase a.fields.type_
    ∧ (validateAttrType scId (setAttrDefaults a)).1.fields.isComplex = false
    ∧ (validateAttrType scId (setAttrDefaults a)).1.fields.isSimple = true
    ∧ (validateAttrType scId (setAttrDefaults a)).2
        = invalidNameErr (setAttrDefaults a).fields
          ++ invalidMutabilityErr (setAttrDefaults a).fields
          ++ invalidReturnedErr (setAttrDefaults a).fields
          ++ invalidUniquenessErr (setAttrDefaults a).fields
          ++ noRefTypesErr (setAttrDefaults a).fields
          ++ noSubAttrsErr (setAttrDefaults a).fields (setAttrDefaults a).subAttributes := by
  cases a with
  | node f subs m =>
    simp only [Attr.fields] at h1 h2
    have hne : f.type_ ≠ "" := fun h => h2 (by rw [h]; decide)
    have hnc : f.type_ ≠ "complex" := fun h => h2 (by rw [h]; decide)
    have hnr : f.type_ ≠ "reference" := fun h => h2 (by rw [h]; decide)
    have hty : (defaultFields f).type_ = f.type_ := by simp [defaultFields, hne]
    have hbc : (f.type_ == "complex") = false := beq_eq_false_iff_ne.mpr hnc
    have hbr : (f.type_ == "reference") = false := beq_eq_false_iff_ne.mpr hnr
    have hisC : (defaultFields f).isComplex = false := by
      simp [defaultFields, hne, hbc]
    have hisS : (defaultFields f).isSimple = true := by
      simp [defaultFields, hne, hbc, hbr]
    have hTypeErr : invalidTypeErr (defaultFields f) = [] := by
      simp [invalidTypeErr, hty, h1]
    refine ⟨?_, ?_, ?_, ?_, ?_⟩ <;>
      simp [setAttrDefaults, validateAttrType, Attr.fields, Attr.subAttributes,
        hisC, hisS, hty, hTypeErr]

/-- Witness for C9 at the attribute declared with type "Complex". -/
theorem c9_case_only_type_mismatch_witness :
    invalidTypeErr (setAttrDefaults capComplexRaw).fields = []
    ∧ (validateAttrType "urn:keydap:one" (setAttrDefaults capComplexRaw)).1.fields.type_
        = toAsciiLowercase capComplexRaw.fields.type_
    ∧ (validateAttrType "urn:keydap:one" (setAttrDefaults capComplexRaw)).1.fields.isComplex
        = false
    ∧ (validateAttrType "urn:keydap:one" (setAttrDefaults capComplexRaw)).1.fields.isSimple
        = true
    ∧ (validateAttrType "urn:keydap:one" (setAttrDefaults capComplexRaw)).2
        = invalidNameErr (setAttrDefaults capComplexRaw).fields
          ++ invalidMutabilityErr (setAttrDefaults capComplexRaw).fields
          ++ invalidReturnedErr (setAttrDefaults capComplexRaw).fields
          ++ invalidUniquenessErr (setAttrDefaults capComplexRaw).fields
          ++ noRefTypesErr (setAttrDefaults capComplexRaw).fields
          ++ noSubAttrsErr (setAttrDefaults capComplexRaw).fields
              (setAttrDefaults capComplexRaw).subAttributes :=
  c9_case_only_type_mismatch "urn:keydap:one" capComplexRaw (by decide) (by decide)

/-- C1 (evidence): `load_schema` returns `Ok` without validating or
indexing — on a schema with an empty attribute list it returns the schema
unchanged, although `validate` rejects exactly that schema, and every
derived index of the returned schema is unpopulated; even with the
commented-out validation reinstated, the return-visibility buckets and
the read-only list of a well-formed schema stay empty, because no code
of the source ever writes them. -/
theorem c1_load_skips_validation :
    load_schema scNoAttrs = Except.ok scNoAttrs
    ∧ (validate scNoAttrs).2 = ["A schema should contain atleast one attribute"]
    ∧ scNoAttrs.attributes = AttrList.nil
    ∧ scNoAttrs.attrMap = AttrMap.nil
    ∧ scNoAttrs.uniqueAts = []
    ∧ scNoAttrs.requiredAts = []
    ∧ (load_and_validate scOneAttr).toOption.map (fun s => s.attrMap.containsKey "username")
        = some true
    ∧ (load_and_validate scOneAttr).toOption.map (fun s => s.atsDefaultRtn) = some []
    ∧ (load_and_validate scOneAttr).toOption.map (fun s => s.atsAlwaysRtn) = some []
    ∧ (load_and_validate scOneAttr).toOption.map (fun s => s.atsNeverRtn) = some []
    ∧ (load_and_validate scOneAttr).toOption.map (fun s => s.atsRequestRtn) = some []
    ∧ (load_and_validate scOneAttr).toOption.map (fun s => s.atsReadOnly) = some [] :=
  ⟨rfl, by decide, rfl, rfl, rfl, rfl, by decide, by decide, by decide, by decide,
    by decide, by decide⟩

/-- C2 (evidence): the name check accepts the four valid examples and
rejects "invalid name" and the empty name, but the regex
`^[0-9A-Za-z_$-]+$` of the source also accepts the leading-digit name
"1invalid" — no "invalid attribute name" error is pushed for it, against
the ABNF `ATTRNAME = ALPHA *(nameChar)` quoted in the source's own
comment. -/
theorem c2_name_rule_eval :
    validNameRegex "validName1" = true
    ∧ validNameRegex "valid_name" = true
    ∧ validNameRegex "valid-name" = true
    ∧ validNameRegex "valid$name" = true
    ∧ validNameRegex "invalid name" = false
    ∧ validNameRegex "" = false
    ∧ validNameRegex "1invalid" = true
    ∧ invalidNameErr { new_attr_type_fields with name := "1invalid" } = [] := by
  decide

/-- C3 (evidence): the claim's schema loads without errors, and the
top-level names "id" land in both index lists, but the dotted path
"name.familyname" never reaches `requiredAts`: `validateAttrType` builds
it only in its local vectors (shown by `validateAttrTypeLocalPaths`),
which are dropped because the function never returns them and its caller
discards the call's value. -/
theorem c3_dotted_path_dropped :
    (validate (normalizeSchema sc3)).2 = []
    ∧ (validate (normalizeSchema sc3)).1.uniqueAts = ["id"]
    ∧ (validate (normalizeSchema sc3)).1.requiredAts = ["id"]
    ∧ "name.familyname" ∉ (validate (normalizeSchema sc3)).1.requiredAts
    ∧ validateAttrTypeLocalPaths sc3.id (setAttrDefaults nameAttrRaw)
        = ([], ["name.familyname"]) := by
  decide

/-- C4: a multi-valued complex attribute declared with zero
sub-attributes ends up, after normalization and `validateAttrType`, with
exactly the five standard entries type/primary/display/value/$ref in its
`subAttrMap`, typed as the claim states; when a `value` sub-attribute is
already declared, the declared node (with its custom description) is kept
and only the other four are synthesized. -/
theorem c4_default_subattr_synthesis :
    emailsValidated.subAttrMap.length = 5
    ∧ (emailsValidated.subAttrMap.find "type").map (fun a => a.fields.type_)
        = some "string"
    ∧ (emailsValidated.subAttrMap.find "primary").map (fun a => a.fields.type_)
        = some "boolean"
    ∧ (emailsValidated.subAttrMap.find "display").map (fun a => a.fields.type_)
        = some "string"
    ∧ (emailsValidated.subAttrMap.find "display").map (fun a => a.fields.mutability)
        = some "immutable"
    ∧ (emailsValidated.subAttrMap.find "value").map (fun a => a.fields.type_)
        = some "string"
    ∧ (emailsValidated.subAttrMap.find "$ref").map (fun a => a.fields.type_)
        = some "string"
    ∧ emailsWithValueValidated.subAttrMap.length = 5
    ∧ emailsWithValueValidated.subAttrMap.find "value"
        = some (validateAttrType "urn:keydap:one" (setAttrDefaults valueDeclRaw)).1
    ∧ (emailsWithValueValidated.subAttrMap.find "value").map (fun a => a.fields.description)
        = some "custom value sub-attribute"
    ∧ emailsWithValueValidated.subAttrMap.containsKey "type" = true
    ∧ emailsWithValueValidated.subAttrMap.containsKey "primary" = true
    ∧ emailsWithValueValidated.subAttrMap.containsKey "display" = true
    ∧ emailsWithValueValidated.subAttrMap.containsKey "$ref" = true := by
  decide

/-- C10: default sub-attribute synthesis writes only the lookup map —
`addDefSubAttrs` changes neither the scalar fields nor the ordered
`subAttributes` list of any attribute, and the multi-valued complex
`emails` attribute declared with zero sub-attributes still has an empty
`subAttributes` list after the whole validation pass, while its
`subAttrMap` holds the five synthesized entries. -/
theorem c10_synthesis_map_only (a : Attr) :
    (addDefSubAttrs a).subAttributes = a.subAttributes
    ∧ (addDefSubAttrs a).fields = a.fields
    ∧ emailsValidated.subAttributes = AttrList.nil
    ∧ emailsValidated.subAttrMap.length = 5 := by
  refine ⟨?_, ?_, by decide, by decide⟩ <;> cases a <;> rfl

end Phoenix
